import Mathlib

/-!
Verification of the `vagrant` dynamic-inventory plugin
(`inventory_plugins/vagrant.py`) against its natural-language specification.

The Python source is shallowly embedded below.  Python strings are modelled
as Lean `String`s, and the handful of Python string primitives the plugin
uses (`startswith`, `strip`, `split` with and without a separator, substring
containment via `in`, `splitlines`) are re-implemented here on `List Char`
so that every proof can reason about them directly.  Python `None`-or-string
variables are modelled as `Option String`; Python truthiness of such a
variable (`if x:`) is the predicate `truthy` (not `none` and not empty).
Python dictionaries (which preserve insertion order) are modelled as
association lists with in-place update.  The external `subprocess.run` call
is modelled by an environment function returning one of the three outcomes
the plugin distinguishes: captured stdout, `CalledProcessError`, or
`TimeoutExpired`.  Exceptions aborting the run are modelled with `Except`.
-/

/-- True on whitespace characters, mirroring the character class used by
Python `str.strip` and no-argument `str.split` for the inputs at hand. -/
def wsp (c : Char) : Bool := c.isWhitespace

/-- The single-quote character, written by code point to keep source plain. -/
def squote : Char := Char.ofNat 39

/-- The double-quote character, written by code point. -/
def dquote : Char := Char.ofNat 34

/-- The newline character. -/
def nlChar : Char := Char.ofNat 10

/-- Boolean list-prefix test. -/
def isPrefixL : List Char → List Char → Bool
  | [], _ => true
  | _ :: _, [] => false
  | a :: as, b :: bs => a == b && isPrefixL as bs

/-- Boolean substring test: does `pat` occur contiguously in the list? -/
def containsL (pat : List Char) : List Char → Bool
  | [] => isPrefixL pat []
  | c :: cs => isPrefixL pat (c :: cs) || containsL pat cs

/-- Python `s.startswith(pre)`. -/
def pyStartswith (s pre : String) : Bool := isPrefixL pre.data s.data

/-- Python `pat in s` (substring containment). -/
def pyIn (pat s : String) : Bool := containsL pat.data s.data

/-- Remove trailing whitespace from a character list. -/
def rstripL : List Char → List Char
  | [] => []
  | c :: cs =>
      let r := rstripL cs
      if r.isEmpty && wsp c then [] else c :: r

/-- Remove leading whitespace from a character list. -/
def lstripL (l : List Char) : List Char := l.dropWhile wsp

/-- Python `s.strip()`. -/
def pyStrip (s : String) : String := String.mk (rstripL (lstripL s.data))

/-- First whitespace-delimited token of a character list. -/
def firstTokL (l : List Char) : List Char :=
  (l.dropWhile wsp).takeWhile (fun c => ¬ wsp c)

/-- Last whitespace-delimited token of a character list. -/
def lastTokL (l : List Char) : List Char :=
  ((l.reverse.dropWhile wsp).takeWhile (fun c => ¬ wsp c)).reverse

/-- Python `s.split()[-1]` (only ever applied to lines holding at least one
non-whitespace character, where it equals the last token). -/
def lastTok (s : String) : String := String.mk (lastTokL s.data)

/-- Python `s.split()[0]`, the first whitespace-delimited token. -/
def firstTok (s : String) : String := String.mk (firstTokL s.data)

/-- Python `s.strip(c)` for a single character `c`. -/
def stripCharL (c : Char) (l : List Char) : List Char :=
  ((l.dropWhile (· == c)).reverse.dropWhile (· == c)).reverse

/-- Python `s.strip(c)` on strings. -/
def pyStripChar (c : Char) (s : String) : String := String.mk (stripCharL c s.data)

/-- Python `s.split(sep)` for a one-character separator: empty segments are
kept, and the result is never the empty list. -/
def splitSepL (sep : Char) : List Char → List (List Char)
  | [] => [[]]
  | c :: cs =>
      let r := splitSepL sep cs
      if c == sep then [] :: r else (c :: r.headD []) :: r.tail

/-- Python `s.split(sep)` on strings, single-character separator. -/
def pySplitSep (s : String) (sep : Char) : List String :=
  (splitSepL sep s.data).map String.mk

/-- Python `s.splitlines()` for newline-only inputs: like splitting on the
newline character, except that a trailing empty segment is dropped and the
empty string yields no lines. -/
def splitlinesL (l : List Char) : List (List Char) :=
  if l.isEmpty then []
  else
    let parts := splitSepL nlChar l
    if (parts.getLastD []).isEmpty then parts.dropLast else parts

/-- Python `s.splitlines()` on strings. -/
def splitlines (s : String) : List String := (splitlinesL s.data).map String.mk

/-- Python truthiness of a `None`-or-string variable: set and non-empty. -/
def truthy : Option String → Bool
  | none => false
  | some s => ! (s == "")

/-- Ordered association-list lookup, modelling Python `d[k]` / `k in d`. -/
def alookup {α : Type} : List (String × α) → String → Option α
  | [], _ => none
  | (k', v) :: rest, k => if k' == k then some v else alookup rest k

/-- Ordered association-list update, modelling Python `d[k] = v`: replace in
place if the key is present, append otherwise. -/
def aset {α : Type} : List (String × α) → String → α → List (String × α)
  | [], k, v => [(k, v)]
  | (k', v') :: rest, k, v =>
      if k' == k then (k', v) :: rest else (k', v') :: aset rest k v

/-- Update the value at a present key with `f`, leaving other entries alone. -/
def amodify {α : Type} (m : List (String × α)) (k : String) (f : α → α) :
    List (String × α) :=
  m.map (fun p => if p.1 == k then (p.1, f p.2) else p)

/-! ## SSHConfigParser: the per-VM ssh-config block parser
(lines 196-240 of `_get_vagrant_vm_details`). -/

/-- One emitted VM connection record (the `vm_details` dict of the source:
`name`, `host`, `user`, `port`, `key`, and the optional `host_only_ip`). -/
structure VMDetails where
  name : String
  host : String
  user : String
  port : String
  key : String
  host_only_ip : Option String
deriving Repr, DecidableEq

/-- The mutable parser variables `vm_name`, `vm_ip`, `vm_user`, `vm_port`,
`vm_key` of the source loop. -/
structure SSHState where
  vm_name : Option String
  vm_ip : Option String
  vm_user : Option String
  vm_port : Option String
  vm_key : Option String
deriving Repr, DecidableEq

/-- All five parser variables unset, as at loop entry. -/
def SSHState.initial : SSHState := ⟨none, none, none, none, none⟩

/-- The completeness test `if vm_name and vm_ip and vm_user and vm_port and
vm_key` of the source. -/
def recordComplete (st : SSHState) : Bool :=
  truthy st.vm_name && truthy st.vm_ip && truthy st.vm_user &&
    truthy st.vm_port && truthy st.vm_key

/-- The four sequential directive checks the source applies to a stripped
line while a block is being collected: `HostName`, `User` (guarded against
`UserKnownHostsFile`), `Port`, `IdentityFile`; each records the last
whitespace-delimited token of the line. -/
def applyDirectives (st : SSHState) (ls : String) : SSHState :=
  let st1 := if pyStartswith ls "HostName" then
      { st with vm_ip := some (pyStrip (lastTok ls)) } else st
  let st2 := if pyStartswith ls "User" && ! pyIn "UserKnownHostsFile" ls then
      { st1 with vm_user := some (pyStrip (lastTok ls)) } else st1
  let st3 := if pyStartswith ls "Port" then
      { st2 with vm_port := some (pyStrip (lastTok ls)) } else st2
  if pyStartswith ls "IdentityFile" then
      { st3 with vm_key := some (pyStrip (lastTok ls)) } else st3

/-- Build the emitted dict from a complete state: the five fields plus
`host_only_ip` when the private-ip lookup for this name is set and
non-empty (the source guards the assignment with exactly that test, which
`lookup` is assumed to have already folded in). -/
def emitRecord (lookup : String → Option String) (st : SSHState) : VMDetails :=
  { name := st.vm_name.getD "", host := st.vm_ip.getD "",
    user := st.vm_user.getD "", port := st.vm_port.getD "",
    key := st.vm_key.getD "", host_only_ip := lookup (st.vm_name.getD "") }

/-- One iteration of the source loop over a raw output line: a line starting
with the literal `Host` assigns `vm_name` (and `continue`s); otherwise with
no truthy `vm_name` the line is skipped; otherwise the stripped line is run
through the directive checks and, if all five fields became truthy, the
record is emitted and every field cleared. -/
def sshStep (lookup : String → Option String) (st : SSHState) (line : String) :
    SSHState × Option VMDetails :=
  if pyStartswith line "Host" then
    ({ st with vm_name := some (pyStrip (lastTok line)) }, none)
  else if ! truthy st.vm_name then (st, none)
  else
    let st' := applyDirectives st (pyStrip line)
    if recordComplete st' then (SSHState.initial, some (emitRecord lookup st'))
    else (st', none)

/-- Run the parser loop from a given state, collecting emitted records in
order. -/
def sshParseGo (lookup : String → Option String) :
    SSHState → List String → List VMDetails
  | _, [] => []
  | st, l :: ls =>
      match sshStep lookup st l with
      | (st', some r) => r :: sshParseGo lookup st' ls
      | (st', none) => sshParseGo lookup st' ls

/-- The whole ssh-config parse of a list of output lines, from the initial
(all-unset) state. -/
def sshParse (lookup : String → Option String) (lines : List String) :
    List VMDetails :=
  sshParseGo lookup SSHState.initial lines

/-! ## DefinitionScanner: `_get_vms_private_ips` (lines 106-133). -/

/-- Extraction of the VM name from a stripped `config.vm.define` line:
`line.split(",")[0].strip().split(" ")[-1].strip(squote).strip(dquote)`. -/
def defineNameOf (ls : String) : String :=
  pyStripChar dquote (pyStripChar squote
    ((pySplitSep (pyStrip ((pySplitSep ls ',').headD "")) (Char.ofNat 32)).getLastD ""))

/-- Extraction of the private IP from a line containing the network pattern:
`line.split(":")[-1].strip().strip(dquote).strip(squote)`. -/
def ipValueOf (ls : String) : String :=
  pyStripChar squote (pyStripChar dquote
    (pyStrip ((pySplitSep ls ':').getLastD "")))

/-- The literal substring whose presence triggers the private-ip branch. -/
def ipPattern : String := "vm.network :private_network, ip:"

/-- The pending `current_vm` after one scanned line: set by a stripped line
starting with `config.vm.define`, otherwise carried over. -/
def pendName (vm : Option String) (line : String) : Option String :=
  if pyStartswith (pyStrip line) "config.vm.define"
  then some (defineNameOf (pyStrip line)) else vm

/-- The pending `current_vm_ip` after one scanned line: set by a stripped
line containing the network pattern, otherwise carried over. -/
def pendIp (ip : Option String) (line : String) : Option String :=
  if pyIn ipPattern (pyStrip line)
  then some (ipValueOf (pyStrip line)) else ip

/-- One iteration of the `_get_vms_private_ips` loop: update both pending
values from the line, then record the pair exactly when both are truthy,
clearing both. -/
def scanStep (vm ip : Option String) (m : List (String × String))
    (line : String) : Option String × Option String × List (String × String) :=
  let vm' := pendName vm line
  let ip' := pendIp ip line
  if truthy vm' && truthy ip' then
    (none, none, aset m (vm'.getD "") (ip'.getD ""))
  else (vm', ip', m)

/-- Run the scanner loop over the file lines, returning `return_data`. -/
def scanGo : Option String → Option String → List (String × String) →
    List String → List (String × String)
  | _, _, m, [] => m
  | vm, ip, m, l :: ls =>
      match scanStep vm ip m l with
      | (vm', ip', m') => scanGo vm' ip' m' ls

/-- `_get_vms_private_ips`: the vm-name to private-ip mapping scanned from
the lines of a Vagrantfile. -/
def _get_vms_private_ips (fileLines : List String) : List (String × String) :=
  scanGo none none [] fileLines

/-! ## GroupNameResolver: the group-name derivation loop (lines 158-182). -/

/-- The candidate probed at a given counter: the base name itself at counter
zero, `base-counter` afterwards (the `format` call of the source). -/
def nameCandidate (base : String) (counter : Nat) : String :=
  if counter == 0 then base else base ++ "-" ++ toString counter

/-- The `while in_loop` body of the source, with explicit fuel.  A fresh
candidate is appended to the assigned list and returned; otherwise the loop
breaks (returning no name) once `counter > len(existing_group_names)`, else
the counter is incremented.  The fuel supplied by `nameLoop` is provably
never exhausted before one of the two exits fires, so the embedding agrees
with the unbounded source loop. -/
def nameLoopGo (base : String) (existing : List String) :
    Nat → Nat → Option String × List String
  | _, 0 => (none, existing)
  | counter, fuel + 1 =>
      let cand := nameCandidate base counter
      if ! existing.contains cand then (some cand, existing ++ [cand])
      else if decide (counter > existing.length) then (none, existing)
      else nameLoopGo base existing (counter + 1) fuel

/-- The whole derivation loop for a base name: the source iterates at most
`existing.length + 2` times before one of its exits fires. -/
def nameLoop (base : String) (existing : List String) :
    Option String × List String :=
  nameLoopGo base existing 0 (existing.length + 2)

/-- Python `path.split("/")[-1]`, the base segment a derived name starts
from. -/
def basenameOf (path : String) : String := (pySplitSep path '/').getLastD ""

/-- Group-name resolution for one PathSpec: a truthy explicit `group_name`
is used verbatim (assigned-name list untouched); otherwise the derivation
loop runs on the final path segment. -/
def resolveGroupName (gname : Option String) (path : String)
    (existing : List String) : Option String × List String :=
  if truthy gname then (gname, existing) else nameLoop (basenameOf path) existing

/-! ## CommandRunner wrapper: `_run_vagrant_command` (lines 81-104). -/

/-- Outcome of one `subprocess.run` invocation, as the plugin distinguishes
them: captured stdout on success, a `CalledProcessError` (non-zero exit with
`check=True`), or a `TimeoutExpired` after the fixed 15-unit timeout. -/
inductive CmdOutcome
  | success (stdout : String)
  | calledProcessError
  | timeoutExpired
deriving Repr, DecidableEq

/-- How a run aborts: an `AnsibleError` raised by the wrapper, an
`AnsibleParserError` raised by group-name resolution, or an exception the
source never catches (modelled with its Python name in the message). -/
inductive RunError
  | ansibleError (msg : String)
  | parserError (msg : String)
  | uncaught (msg : String)
deriving Repr, DecidableEq

/-- The external world: the process runner (command line, working directory),
the `os.path.isfile` probe, and the `readlines` of a Vagrantfile. -/
structure VagrantEnv where
  runner : String → String → CmdOutcome
  isfile : String → Bool
  readlines : String → List String

/-- The effective subcommand string: `--version` when no argument is given
(Python `if not arguments`). -/
def effArguments (arguments : Option String) : String :=
  if truthy arguments then arguments.getD "" else "--version"

/-- The effective working directory: `/tmp` when no truthy folder is given. -/
def effFolder (folder : Option String) : String :=
  if truthy folder then folder.getD "" else "/tmp"

/-- `_run_vagrant_command`: raises `AnsibleError` when given arguments but no
folder; otherwise runs `vagrant <args>` in the folder.  On success the
stdout is returned; on `CalledProcessError` the error is fatal unless the
arguments are exactly `ssh-config`, in which case a warning is printed and
`None` (here `none`) is returned; a `TimeoutExpired` is caught by nothing
and propagates for every subcommand. -/
def _run_vagrant_command (env : VagrantEnv) (arguments folder : Option String) :
    Except RunError (Option String) :=
  if truthy arguments && ! truthy folder then
    .error (.ansibleError "You must specify a folder to run vagrant ssh-config")
  else
    let args := effArguments arguments
    match env.runner ("vagrant " ++ args) (effFolder folder) with
    | .success out => .ok (some out)
    | .calledProcessError =>
        if args ≠ "ssh-config" then
          .error (.ansibleError "Running vagrant command failed")
        else .ok none
    | .timeoutExpired => .error (.uncaught "subprocess.TimeoutExpired")

/-! ## PathAggregator and InventoryAssembler:
`_get_vagrant_vm_details` (lines 135-250). -/

/-- One `additional_vars` element: a dict that may or may not carry the
`key` and `val` entries. -/
structure VarItem where
  key : Option String
  val : Option String
deriving Repr, DecidableEq

/-- One configured source: the dict may lack `path`, may carry an explicit
`group_name`, and may carry `additional_vars`. -/
structure PathSpec where
  path : Option String
  group_name : Option String
  additional_vars : Option (List VarItem)
deriving Repr, DecidableEq

/-- The per-group accumulator dict of the source: the `vms` list, plus the
`vars` entry when one has been assigned. -/
structure GroupAccum where
  vms : List VMDetails
  vars : Option (List VarItem)
deriving Repr, DecidableEq

/-- One element of the final `vm_data` list. -/
structure GroupData where
  group : String
  vms : List VMDetails
  vars : Option (List VarItem)
deriving Repr, DecidableEq

/-- The mutable state threaded through the path loop: `private_ips`,
`existing_group_names`, `vagrant_vm_details`. -/
structure AggState where
  private_ips : List (String × List (String × String))
  existing_group_names : List String
  vm_details : List (String × GroupAccum)
deriving Repr, DecidableEq

/-- All three accumulators empty, as before the loop. -/
def AggState.initial : AggState := ⟨[], [], []⟩

/-- The guarded private-ip lookup of line 232: the group must be a key of
`private_ips`, the vm name a key of its map, and the stored ip truthy. -/
def ipLookup (pips : List (String × List (String × String)))
    (group name : String) : Option String :=
  match alookup pips group with
  | none => none
  | some m =>
      match alookup m name with
      | none => none
      | some ip => if ip == "" then none else some ip

/-- Processing of one PathSpec (one iteration of the loop at line 148):
skip without a `path` key; skip when `<path>/Vagrantfile` does not exist;
resolve the group name, raising `AnsibleParserError` when it is not truthy;
optionally scan private ips; create the group entry when absent; store
`additional_vars` when truthy; then run `vagrant ssh-config` there — a
fatal wrapper error propagates, and a `None` return (the warned ssh-config
failure) crashes on the unconditional `.splitlines()` attribute access;
finally parse the output and append the records to the group. -/
def processPath (env : VagrantEnv) (get_private_ip : Bool) (st : AggState)
    (item : PathSpec) : Except RunError AggState :=
  match item.path with
  | none => .ok st
  | some vagrant_path =>
      let vagrant_file_path := vagrant_path ++ "/Vagrantfile"
      if ! env.isfile vagrant_file_path then .ok st
      else
        match resolveGroupName item.group_name vagrant_path
            st.existing_group_names with
        | (gname, existing') =>
            if ! truthy gname then
              .error (.parserError "Could not decide group name from given data")
            else
              let group_name := gname.getD ""
              let pips :=
                if get_private_ip then
                  aset st.private_ips group_name
                    (_get_vms_private_ips (env.readlines vagrant_file_path))
                else st.private_ips
              let details0 :=
                if (alookup st.vm_details group_name).isNone then
                  st.vm_details ++ [(group_name, ⟨[], none⟩)]
                else st.vm_details
              let details1 :=
                match item.additional_vars with
                | some vs =>
                    if ! vs.isEmpty then
                      amodify details0 group_name (fun g => { g with vars := some vs })
                    else details0
                | none => details0
              match _run_vagrant_command env (some "ssh-config") (some vagrant_path) with
              | .error e => .error e
              | .ok none =>
                  .error (.uncaught "AttributeError: NoneType object has no attribute splitlines")
              | .ok (some out) =>
                  let recs := sshParse (ipLookup pips group_name) (splitlines out)
                  .ok { private_ips := pips, existing_group_names := existing',
                        vm_details :=
                          amodify details1 group_name
                            (fun g => { g with vms := g.vms ++ recs }) }

/-- `_get_vagrant_vm_details`: first the version probe (whose failure is
fatal, its arguments not being `ssh-config`), then the loop over all
configured paths, then the conversion of the accumulated ordered dict into
the `vm_data` list, a `vars` entry being copied exactly when one was set. -/
def _get_vagrant_vm_details (env : VagrantEnv) (get_private_ip : Bool)
    (vm_paths : List PathSpec) : Except RunError (List GroupData) :=
  match _run_vagrant_command env none none with
  | .error e => .error e
  | .ok _ =>
      match vm_paths.foldlM (processPath env get_private_ip) AggState.initial with
      | .error e => .error e
      | .ok st =>
          .ok (st.vm_details.map (fun p => ⟨p.1, p.2.vms, p.2.vars⟩))

/-! ## InventoryEmitter: `_parse_ansible_data` (lines 252-293), modelled as
the ordered list of framework operations performed. -/

/-- One operation on the inventory sink. -/
inductive InvOp
  | addGroup (g : String)
  | addHost (h : String) (g : String)
  | setVariable (entity k v : String)
  | addChild (parent child : String)
deriving Repr, DecidableEq

/-- The inventory identity chosen for one VM (lines 270-273): the truthy
`host_only_ip` when present, else the `name`. -/
def inventory_host (vm : VMDetails) : String :=
  if truthy vm.host_only_ip then vm.host_only_ip.getD "" else vm.name

/-- The operations emitted for one VM: the host is added under its chosen
identity, and the five fixed variables are set on it, the SSH-reachable
address going only into `ansible_host`. -/
def emitVm (group : String) (vm : VMDetails) : List InvOp :=
  [ .addHost (inventory_host vm) group,
    .setVariable (inventory_host vm) "ht_name" vm.name,
    .setVariable (inventory_host vm) "ansible_host" vm.host,
    .setVariable (inventory_host vm) "ansible_port" vm.port,
    .setVariable (inventory_host vm) "ansible_user" vm.user,
    .setVariable (inventory_host vm) "ansible_ssh_private_key_file" vm.key ]

/-- The group-variable operations: items lacking `key` or `val` are dropped
silently. -/
def emitVars (group : String) (vars : List VarItem) : List InvOp :=
  (vars.map (fun it =>
    match it.key, it.val with
    | some k, some v => [InvOp.setVariable group k v]
    | _, _ => [])).flatten

/-- `_parse_ansible_data`: the `vagrant` umbrella group, then per group its
creation, variables, VM hosts and nesting, then the `all` nesting and the
synthetic `local` group. -/
def _parse_ansible_data (data : List GroupData) : List InvOp :=
  [InvOp.addGroup "vagrant"]
  ++ (data.map (fun g =>
        [InvOp.addGroup g.group]
        ++ (match g.vars with
            | some vs => emitVars g.group vs
            | none => [])
        ++ (g.vms.map (emitVm g.group)).flatten
        ++ [InvOp.addChild "vagrant" g.group])).flatten
  ++ [InvOp.addChild "all" "vagrant", InvOp.addGroup "local",
      InvOp.addHost "127.0.0.1" "local",
      InvOp.setVariable "127.0.0.1" "ansible_connection" "local",
      InvOp.setVariable "127.0.0.1" "ht_name" "local",
      InvOp.addChild "all" "local"]

/-! ## CacheManager decision: `parse` (lines 295-323). -/

/-- Store update, modelling `self._cache[cache_key] = vagrant_data`. -/
def cacheUpdate (store : String → Option (List GroupData)) (k : String)
    (v : List GroupData) : String → Option (List GroupData) :=
  fun x => if x == k then some v else store x

/-- What a run of `parse` produced: the data handed to the emitter, the
cache store afterwards, and whether `_get_vagrant_vm_details` (and with it
any CommandRunner invocation) ran at all. -/
structure ParseResult where
  emitted : List GroupData
  store : String → Option (List GroupData)
  ranAggregation : Bool

/-- The cache-or-recompute decision of `parse`: caching is effective when
the `cache` parameter and the `cache` option are both true; on a hit the
stored list is replayed verbatim without running the aggregation; otherwise
the aggregation result is used and stored exactly when caching is effective
and the key was absent.  The aggregation outcome is passed in as the
`compute` value; a fatal aggregation error propagates. -/
def parsePlugin (cacheParam cacheOption : Bool) (cache_key : String)
    (store : String → Option (List GroupData))
    (compute : Except RunError (List GroupData)) : Except RunError ParseResult :=
  let cache := cacheParam && cacheOption
  match (if cache then store cache_key else none) with
  | some d => .ok ⟨d, store, false⟩
  | none =>
      match compute with
      | .error e => .error e
      | .ok data =>
          .ok ⟨data, if cache then cacheUpdate store cache_key data else store, true⟩

/-! ## Concrete scenarios used by counterexamples and witnesses. -/

/-- A well-formed ssh-config block for `vm1`, as `vagrant ssh-config` prints
it for the directory `/a`. -/
def cfgA : String :=
  "Host vm1\n  HostName 10.0.0.1\n  User ua\n  Port 2201\n  IdentityFile /ka\n"

/-- A well-formed ssh-config block for `vm2`, printed for `/b`. -/
def cfgB : String :=
  "Host vm2\n  HostName 10.0.0.2\n  User ub\n  Port 2202\n  IdentityFile /kb\n"

/-- The record parsed from `cfgA`. -/
def recA : VMDetails := ⟨"vm1", "10.0.0.1", "ua", "2201", "/ka", none⟩

/-- The record parsed from `cfgB`. -/
def recB : VMDetails := ⟨"vm2", "10.0.0.2", "ub", "2202", "/kb", none⟩

/-- An environment where the version probe succeeds and `vagrant ssh-config`
succeeds in both `/a` and `/b`, printing one block each. -/
def env5 : VagrantEnv :=
  { runner := fun cmd folder =>
      if cmd = "vagrant --version" then .success "Vagrant 2.3.4"
      else if folder = "/a" then .success cfgA else .success cfgB,
    isfile := fun _ => true,
    readlines := fun _ => [] }

/-- An environment where the version probe succeeds but every other vagrant
invocation exits non-zero. -/
def envC2 : VagrantEnv :=
  { runner := fun cmd _ =>
      if cmd = "vagrant --version" then .success "Vagrant 2.3.4"
      else .calledProcessError,
    isfile := fun _ => true,
    readlines := fun _ => [] }

/-- An environment where every vagrant invocation exits non-zero, so already
the version probe fails. -/
def envBadProbe : VagrantEnv :=
  { runner := fun _ _ => .calledProcessError,
    isfile := fun _ => true,
    readlines := fun _ => [] }

/-- An environment where the version probe succeeds but every other vagrant
invocation exceeds the 15-unit timeout. -/
def envT : VagrantEnv :=
  { runner := fun cmd _ =>
      if cmd = "vagrant --version" then .success "Vagrant 2.3.4"
      else .timeoutExpired,
    isfile := fun _ => true,
    readlines := fun _ => [] }

/-- An environment where everything succeeds; used for the trailing-slash
path scenario, where no vagrant command beyond the probe is ever reached. -/
def env10 : VagrantEnv :=
  { runner := fun _ _ => .success "Vagrant 2.3.4",
    isfile := fun _ => true,
    readlines := fun _ => [] }

/-- A stored aggregation result for the cache-witness scenario. -/
def gdW : GroupData := ⟨"g", [recA], none⟩

/-- A cache store holding `gdW` under the key `key1`. -/
def store1 : String → Option (List GroupData) :=
  fun k => if k == "key1" then some [gdW] else none

/-- The empty cache store. -/
def store0 : String → Option (List GroupData) := fun _ => none

/-- A record carrying a host-only ip, for the identity-resolution witness. -/
def vmW : VMDetails := ⟨"n1", "10.1.1.1", "u", "22", "/k", some "10.0.0.5"⟩

/-- A record without a host-only ip. -/
def vmW2 : VMDetails := ⟨"n2", "10.1.1.2", "u", "22", "/k", none⟩

/-! ## Helper lemmas. -/

/-- The `takeWhile` of a list is one of its boolean prefixes. -/
theorem isPrefixL_takeWhile (p : Char → Bool) :
    ∀ l : List Char, isPrefixL (l.takeWhile p) l = true := by
  intro l
  induction l with
  | nil => rfl
  | cons c cs ih =>
      by_cases h : p c = true
      · simp [List.takeWhile_cons, h, isPrefixL, ih]
      · simp [List.takeWhile_cons, h, isPrefixL]

/-- Splitting on a separator never yields the empty list of segments. -/
theorem splitSepL_ne_nil (sep : Char) : ∀ l : List Char, splitSepL sep l ≠ [] := by
  intro l
  cases l with
  | nil => simp [splitSepL]
  | cons c cs =>
      by_cases h : (c == sep) = true <;> simp [splitSepL, h]

/-- Splitting a list that ends in the separator yields a nonempty prefix of
segments followed by one final empty segment. -/
theorem splitSepL_append_sep_shape (sep : Char) :
    ∀ q : List Char, ∃ i0 irest,
      splitSepL sep (q ++ [sep]) = (i0 :: irest) ++ [[]] := by
  intro q
  induction q with
  | nil =>
      refine ⟨[], [], ?_⟩
      simp [splitSepL]
  | cons c q ih =>
      obtain ⟨i0, irest, hih⟩ := ih
      by_cases h : (c == sep) = true
      · refine ⟨[], i0 :: irest, ?_⟩
        simp [splitSepL, h, hih]
      · refine ⟨c :: i0, irest, ?_⟩
        simp [splitSepL, h, hih]

/-- The last segment of a split of a list ending in the separator is empty. -/
theorem splitSepL_append_sep_getLastD (sep : Char) :
    ∀ q : List Char, (splitSepL sep (q ++ [sep])).getLastD [] = [] := by
  intro q
  obtain ⟨i0, irest, hsh⟩ := splitSepL_append_sep_shape sep q
  rw [hsh, List.getLastD_eq_getLast?, List.getLast?_concat]
  rfl

/-- Mapping `String.mk` commutes with `getLastD`. -/
theorem map_mk_getLastD :
    ∀ (l : List (List Char)) (d : List Char),
      (l.map String.mk).getLastD (String.mk d) = String.mk (l.getLastD d) := by
  intro l
  induction l with
  | nil => intro d; rfl
  | cons c t ih =>
      intro d
      simp only [List.map_cons, List.getLastD_cons]
      exact ih c

/-- The base segment derived from a path ending in the separator is the
empty string. -/
theorem basenameOf_trailing_sep (p : String) (q : List Char)
    (hp : p.data = q ++ ['/']) : basenameOf p = "" := by
  have h0 : basenameOf p
      = ((splitSepL '/' p.data).map String.mk).getLastD (String.mk []) := rfl
  rw [h0, map_mk_getLastD, hp, splitSepL_append_sep_getLastD]

/-- The group-name probe loop, run with enough fuel and a counter below the
first fresh candidate, returns that first fresh candidate and appends it. -/
theorem nameLoopGo_finds (base : String) (existing : List String) :
    ∀ (fuel c k : Nat), c ≤ k → k ≤ existing.length + 1 → k + 1 ≤ c + fuel →
    (∀ j, c ≤ j → j < k → existing.contains (nameCandidate base j) = true) →
    existing.contains (nameCandidate base k) = false →
    nameLoopGo base existing c fuel
      = (some (nameCandidate base k), existing ++ [nameCandidate base k]) := by
  intro fuel
  induction fuel with
  | zero => intro c k hck hk hfuel _ _; omega
  | succ n ih =>
      intro c k hck hk hfuel hmem hfresh
      by_cases hc : c = k
      · subst hc
        simp only [nameLoopGo, hfresh, Bool.not_false, if_true]
      · have hlt : c < k := lt_of_le_of_ne hck hc
        have h1 : existing.contains (nameCandidate base c) = true :=
          hmem c le_rfl hlt
        have h2 : ¬ (c > existing.length) := by omega
        simp only [nameLoopGo, h1, Bool.not_true, Bool.false_eq_true, if_false,
          decide_eq_true_eq, h2, if_false]
        exact ih (c + 1) k hlt hk (by omega)
          (fun j hj1 hj2 => hmem j (by omega) hj2) hfresh

/-! ## Claims. -/

/-- C1 (counterexample): the claim predicts that the `Host b` line resets
all pending fields, so that block `b`, in which only `IdentityFile` is ever
observed, is malformed and contributes nothing.  In fact the parser emits
one record for it, carrying `HostName`, `User` and `Port` values leaked
from the incomplete block `a`; and the step on a `Host` line does not
produce the reset state the claim describes. -/
theorem C1_counterexample :
    sshParse (fun _ => none)
        ["Host a", "  HostName 10.0.0.1", "  User ua", "  Port 2201",
         "Host b", "  IdentityFile /k"]
      = [⟨"b", "10.0.0.1", "ua", "2201", "/k", none⟩]
    ∧ (sshStep (fun _ => none)
        ⟨some "a", some "10.0.0.1", some "ua", some "2201", none⟩ "Host b").1
      ≠ ⟨some "b", none, none, none, none⟩ := by
  refine ⟨by decide, by decide⟩

/-- C1 (amended): a raw line starting with the literal `Host` sets only the
pending name to the stripped last whitespace-delimited token of the line
and emits nothing; every other pending field is left unchanged rather than
reset, which is how an incomplete block's partial values can leak into a
later block's emitted record. -/
theorem C1_host_line_sets_only_name :
    ∀ (lookup : String → Option String) (st : SSHState) (line : String),
      pyStartswith line "Host" = true →
      sshStep lookup st line
        = ({ st with vm_name := some (pyStrip (lastTok line)) }, none) := by
  intro lookup st line h
  simp [sshStep, h]

/-- C1 (witness): the amended theorem applied to the state pending from an
incomplete block and the line `Host b`. -/
theorem C1_witness :
    pyStartswith "Host b" "Host" = true
    ∧ sshStep (fun _ => none)
        ⟨some "a", some "10.0.0.1", some "ua", some "2201", none⟩ "Host b"
      = (⟨some (pyStrip (lastTok "Host b")), some "10.0.0.1", some "ua",
          some "2201", none⟩, none) :=
  ⟨by decide,
   C1_host_line_sets_only_name (fun _ => none)
     ⟨some "a", some "10.0.0.1", some "ua", some "2201", none⟩ "Host b"
     (by decide)⟩

/-- C2 (code bug): with the version probe succeeding, both configured paths
present, and `vagrant ssh-config` failing in `/a`, the plugin prints the
SKIPPED warning but then calls `.splitlines()` on the `None` the wrapper
returned, so the whole run aborts with an `AttributeError` instead of
continuing with `/b`.  Failures of any other subcommand (second conjunct:
the version probe) abort the run with the fatal `AnsibleError`, as the
claim says. -/
theorem C2_ssh_config_failure_crashes_run :
    _get_vagrant_vm_details envC2 false
        [⟨some "/a", some "g", none⟩, ⟨some "/b", some "h", none⟩]
      = .error (.uncaught "AttributeError: NoneType object has no attribute splitlines")
    ∧ _get_vagrant_vm_details envBadProbe false []
      = .error (.ansibleError "Running vagrant command failed") :=
  ⟨rfl, rfl⟩

/-- C3: with caching effective (parameter and option both true) and the key
stored, `parse` replays the stored list verbatim, leaves the store
untouched and never runs the aggregation (hence no CommandRunner
invocation), for every possible aggregation outcome; on a miss the
aggregation result is emitted and stored under the key; with caching not
effective the aggregation result is emitted and nothing is stored. -/
theorem C3_cache_semantics :
    ∀ (key : String) (store : String → Option (List GroupData))
      (compute : Except RunError (List GroupData)),
      (∀ d, store key = some d →
          parsePlugin true true key store compute = .ok ⟨d, store, false⟩)
      ∧ (store key = none → ∀ data, compute = .ok data →
          parsePlugin true true key store compute
            = .ok ⟨data, cacheUpdate store key data, true⟩)
      ∧ (∀ cp co data, (cp && co) = false → compute = .ok data →
          parsePlugin cp co key store compute = .ok ⟨data, store, true⟩) := by
  intro key store compute
  refine ⟨?_, ?_, ?_⟩
  · intro d hd
    simp [parsePlugin, hd]
  · intro hnone data hdata
    simp [parsePlugin, hnone, hdata]
  · intro cp co data hcc hdata
    simp [parsePlugin, hcc, hdata]

/-- C3 (witness): the three cases at concrete stores: a hit on `store1`
replays `gdW` without aggregating, a miss on `store0` aggregates and
stores, and a run with the option off aggregates without storing. -/
theorem C3_witness :
    parsePlugin true true "key1" store1 (.ok []) = .ok ⟨[gdW], store1, false⟩
    ∧ parsePlugin true true "key1" store0 (.ok [gdW])
      = .ok ⟨[gdW], cacheUpdate store0 "key1" [gdW], true⟩
    ∧ parsePlugin true false "key1" store1 (.ok [gdW])
      = .ok ⟨[gdW], store1, true⟩ :=
  ⟨(C3_cache_semantics "key1" store1 (.ok [])).1 [gdW] rfl,
   (C3_cache_semantics "key1" store0 (.ok [gdW])).2.1 rfl [gdW] rfl,
   (C3_cache_semantics "key1" store1 (.ok [gdW])).2.2 true false [gdW] rfl rfl⟩

set_option maxRecDepth 8192 in
/-- C4 (counterexample): the claim predicts that a VM name is only ever
paired with the private-network IP line that immediately follows it, so on
a file whose IP line precedes its `config.vm.define` line nothing (or at
least no such pair) would be recorded.  In fact the scanner records the
pair: the pending ip survives until the name arrives. -/
theorem C4_counterexample :
    _get_vms_private_ips
        ["vm.network :private_network, ip: \"1.2.3.4\"", "config.vm.define \"a\""]
      = [("a", "1.2.3.4")]
    ∧ _get_vms_private_ips
        ["vm.network :private_network, ip: \"1.2.3.4\"", "config.vm.define \"a\""]
      ≠ [] := by
  refine ⟨by decide, by decide⟩

/-- C4 (amended): a pair is recorded into the mapping only when, after the
line's own updates, both a pending name and a pending ip are truthy — and
then both pendings are cleared; when either is missing the map is unchanged
and both pendings are simply carried.  The pending ip may however originate
from an IP line preceding the name line, so a name pairs with the nearest
unconsumed IP line on either side, not only the one that follows it. -/
theorem C4_record_requires_both_pending :
    ∀ (vm ip : Option String) (m : List (String × String)) (line : String),
      ((scanStep vm ip m line).2.2 ≠ m →
        (scanStep vm ip m line).1 = none ∧ (scanStep vm ip m line).2.1 = none)
      ∧ ((truthy (pendName vm line) && truthy (pendIp ip line)) = false →
          scanStep vm ip m line = (pendName vm line, pendIp ip line, m))
      ∧ ((truthy (pendName vm line) && truthy (pendIp ip line)) = true →
          scanStep vm ip m line
            = (none, none,
               aset m ((pendName vm line).getD "") ((pendIp ip line).getD ""))) := by
  intro vm ip m line
  by_cases h : (truthy (pendName vm line) && truthy (pendIp ip line)) = true
  · refine ⟨fun _ => ?_, fun hf => ?_, fun _ => ?_⟩
    · simp [scanStep, h]
    · rw [hf] at h; cases h
    · simp [scanStep, h]
  · have hf : (truthy (pendName vm line) && truthy (pendIp ip line)) = false :=
      Bool.not_eq_true _ ▸ Bool.of_not_eq_true h
    refine ⟨fun hne => ?_, fun _ => ?_, fun ht => ?_⟩
    · exact absurd (by simp [scanStep, hf]) hne
    · simp [scanStep, hf]
    · rw [ht] at hf; cases hf

set_option maxRecDepth 8192 in
/-- C4 (witness): the amended theorem applied after a `config.vm.define`
line with an ip already pending (the pair is recorded and both pendings
cleared), and to a define line with no ip pending (nothing recorded). -/
theorem C4_witness :
    (truthy (pendName none "config.vm.define \"a\"")
        && truthy (pendIp (some "1.2.3.4") "config.vm.define \"a\"")) = true
    ∧ scanStep none (some "1.2.3.4") [] "config.vm.define \"a\""
      = (none, none,
         aset [] ((pendName none "config.vm.define \"a\"").getD "")
           ((pendIp (some "1.2.3.4") "config.vm.define \"a\"").getD ""))
    ∧ scanStep none none [] "config.vm.define \"a\""
      = (pendName none "config.vm.define \"a\"",
         pendIp none "config.vm.define \"a\"", []) :=
  ⟨by decide,
   (C4_record_requires_both_pending none (some "1.2.3.4") []
      "config.vm.define \"a\"").2.2 (by decide),
   (C4_record_requires_both_pending none none []
      "config.vm.define \"a\"").2.1 (by decide)⟩

/-- C5 (counterexample): two processed PathSpecs carrying the same explicit
`group_name` `g` do not yield two distinctly named Groups; the run yields a
single Group named `g` whose VM list holds both paths' records, so the
claim's distinctness (two Groups for two processed PathSpecs) fails. -/
theorem C5_counterexample :
    _get_vagrant_vm_details env5 false
        [⟨some "/a", some "g", none⟩, ⟨some "/b", some "g", none⟩]
      = .ok [⟨"g", [recA, recB], none⟩]
    ∧ ¬ (∃ gs, _get_vagrant_vm_details env5 false
          [⟨some "/a", some "g", none⟩, ⟨some "/b", some "g", none⟩] = .ok gs
          ∧ gs.length = 2) := by
  have h1 : _get_vagrant_vm_details env5 false
      [⟨some "/a", some "g", none⟩, ⟨some "/b", some "g", none⟩]
      = .ok [⟨"g", [recA, recB], none⟩] := by rfl
  refine ⟨h1, ?_⟩
  rintro ⟨gs, hgs, hlen⟩
  rw [h1] at hgs
  injection hgs with h
  rw [← h] at hlen
  simp at hlen

/-- C5 (amended): group-name uniqueness is enforced only for derived names;
an explicit `group_name` is used verbatim with no uniqueness check, and the
per-run group table is keyed by name, so two PathSpecs with the same
explicit `group_name` are combined into a single Group: their VM lists are
appended in processing order and the later PathSpec's `additional_vars`
overwrite the earlier's. -/
theorem C5_explicit_name_collision_merges :
    _get_vagrant_vm_details env5 false
        [⟨some "/a", some "g", some [⟨some "k", some "1"⟩]⟩,
         ⟨some "/b", some "g", some [⟨some "k", some "2"⟩]⟩]
      = .ok [⟨"g", [recA, recB], some [⟨some "k", some "2"⟩]⟩] := by rfl

/-- C6: derived group names probe `base`, `base-1`, `base-2`, … and select
the first candidate not in the assigned list, appending it.  Concretely,
base `demo` against assigned `demo, demo-1` resolves to `demo-2` (first
conjunct, through the full path-based resolver); in general the probe loop
returns the first fresh candidate (second conjunct; the bound on `k` always
holds, as at most `existing.length` distinct candidates can be occupied);
and two PathSpecs sharing the same basename `b` with no explicit name
resolve to `b` then `b-1` in processing order (third conjunct). -/
theorem C6_group_name_probe :
    (resolveGroupName none "/x/demo" ["demo", "demo-1"]
      = (some "demo-2", ["demo", "demo-1", "demo-2"]))
    ∧ (∀ (base : String) (existing : List String) (k : Nat),
        k ≤ existing.length + 1 →
        (∀ j, j < k → existing.contains (nameCandidate base j) = true) →
        existing.contains (nameCandidate base k) = false →
        nameLoop base existing
          = (some (nameCandidate base k), existing ++ [nameCandidate base k]))
    ∧ (∀ b : String, b ≠ "" →
        nameLoop b [] = (some b, [b])
        ∧ nameLoop b [b] = (some (b ++ "-1"), [b, b ++ "-1"])) := by
  refine ⟨by decide, ?_, ?_⟩
  · intro base existing k hk hmem hfresh
    exact nameLoopGo_finds base existing (existing.length + 2) 0 k
      (Nat.zero_le k) hk (by omega) (fun j _ hj => hmem j hj) hfresh
  · intro b hb
    have ht : toString (1 : Nat) = "1" := rfl
    have hcand : nameCandidate b 1 = b ++ "-1" := by
      have h0 : nameCandidate b 1 = b ++ "-" ++ toString (1 : Nat) := rfl
      rw [h0, ht, String.append_assoc]
      rfl
    have hne : b ++ "-1" ≠ b := by
      intro he
      have hlen := congrArg String.length he
      rw [String.length_append] at hlen
      have h2 : ("-1" : String).length = 2 := rfl
      rw [h2] at hlen
      omega
    constructor
    · simp [nameLoop, nameLoopGo, nameCandidate]
    · have hc0 : ([b].contains (nameCandidate b 0)) = true := by
        simp [nameCandidate, List.contains]
      have hc1 : ([b].contains (nameCandidate b 1)) = false := by
        rw [hcand]
        have hbeq : (b ++ "-1" == b) = false := beq_eq_false_iff_ne.mpr hne
        simp [List.contains, hbeq]
        exact hne
      have hfin := nameLoopGo_finds b [b] 3 0 1 (by omega) (by omega) (by omega)
        (fun j _ hj => by
          have hj0 : j = 0 := Nat.lt_one_iff.mp hj
          rw [hj0]
          exact hc0) hc1
      rw [show nameLoop b [b] = nameLoopGo b [b] 0 3 from rfl, hfin, hcand]
      rfl

/-- C6 (witness): the general probe conjunct applied at base `x` with `x`
already assigned (yielding `x-1`), and the same-basename conjunct at `y`. -/
theorem C6_witness :
    nameLoop "x" ["x"] = (some (nameCandidate "x" 1), ["x"] ++ [nameCandidate "x" 1])
    ∧ nameLoop "y" [] = (some "y", ["y"])
    ∧ nameLoop "y" ["y"] = (some ("y" ++ "-1"), ["y", "y" ++ "-1"]) :=
  ⟨C6_group_name_probe.2.1 "x" ["x"] 1 (by decide)
      (fun j hj => by
        have hj0 : j = 0 := Nat.lt_one_iff.mp hj
        rw [hj0]
        decide)
      (by decide),
   (C6_group_name_probe.2.2 "y" (by decide)).1,
   (C6_group_name_probe.2.2 "y" (by decide)).2⟩

/-- C7: for every VM record, the emitter materializes the inventory host
identity as the truthy `host_only_ip` when one is present (second
conjunct), else as the `name` (third conjunct); the identity never consults
the SSH-reachable `host` field (fourth conjunct: replacing `host` leaves the
identity unchanged), and the `host` field is attached only through the
`ansible_host` variable, as the explicit operation list of the first
conjunct shows. -/
theorem C7_identity_resolution :
    ∀ (group : String) (vm : VMDetails),
      emitVm group vm
        = [ .addHost (inventory_host vm) group,
            .setVariable (inventory_host vm) "ht_name" vm.name,
            .setVariable (inventory_host vm) "ansible_host" vm.host,
            .setVariable (inventory_host vm) "ansible_port" vm.port,
            .setVariable (inventory_host vm) "ansible_user" vm.user,
            .setVariable (inventory_host vm) "ansible_ssh_private_key_file" vm.key ]
      ∧ (∀ s, vm.host_only_ip = some s → s ≠ "" → inventory_host vm = s)
      ∧ (truthy vm.host_only_ip = false → inventory_host vm = vm.name)
      ∧ (∀ h, inventory_host { vm with host := h } = inventory_host vm) := by
  intro group vm
  refine ⟨rfl, ?_, ?_, ?_⟩
  · intro s hs hne
    have hbeq : (s == "") = false := beq_eq_false_iff_ne.mpr hne
    simp [inventory_host, truthy, hs, hbeq]
  · intro hf
    simp [inventory_host, hf]
  · intro h
    simp [inventory_host]

/-- C7 (witness): a record carrying host-only ip `10.0.0.5` is identified
as `10.0.0.5`, one without is identified by its name, and replacing the
`host` field does not change the identity. -/
theorem C7_witness :
    inventory_host vmW = "10.0.0.5"
    ∧ truthy vmW2.host_only_ip = false
    ∧ inventory_host vmW2 = vmW2.name
    ∧ inventory_host { vmW with host := "8.8.8.8" } = inventory_host vmW :=
  ⟨(C7_identity_resolution "g" vmW).2.1 "10.0.0.5" rfl (by decide),
   by decide,
   (C7_identity_resolution "g" vmW2).2.2.1 (by decide),
   (C7_identity_resolution "g" vmW).2.2.2 "8.8.8.8"⟩

/-- C8 (counterexample): the claim predicts that a timeout of the
`ssh-config` invocation is the non-fatal path-skip case (the warned `none`
return).  In fact the wrapper catches only `CalledProcessError`, so the
timeout aborts the run with the uncaught `TimeoutExpired` and the result is
not the skip value. -/
theorem C8_counterexample :
    _run_vagrant_command envT (some "ssh-config") (some "/a")
      = .error (.uncaught "subprocess.TimeoutExpired")
    ∧ _run_vagrant_command envT (some "ssh-config") (some "/a") ≠ .ok none :=
  ⟨rfl, fun h => Except.noConfusion h⟩

/-- C8 (amended): a timeout of the bounded external invocation is a fatal
run error for every subcommand, including `ssh-config`: the wrapper's
handler catches only non-zero-exit failures, so `TimeoutExpired` always
propagates and aborts the run. -/
theorem C8_timeout_always_fatal :
    ∀ (env : VagrantEnv) (arguments folder : Option String),
      (truthy arguments && ! truthy folder) = false →
      env.runner ("vagrant " ++ effArguments arguments) (effFolder folder)
        = .timeoutExpired →
      _run_vagrant_command env arguments folder
        = .error (.uncaught "subprocess.TimeoutExpired") := by
  intro env arguments folder hcond hrun
  simp [_run_vagrant_command, hcond, hrun]

/-- C8 (witness): the amended theorem applied to the timeout environment
with the `ssh-config` subcommand in `/a`. -/
theorem C8_witness :
    (truthy (some "ssh-config") && ! truthy (some "/a")) = false
    ∧ envT.runner ("vagrant " ++ effArguments (some "ssh-config"))
        (effFolder (some "/a")) = .timeoutExpired
    ∧ _run_vagrant_command envT (some "ssh-config") (some "/a")
      = .error (.uncaught "subprocess.TimeoutExpired") :=
  ⟨by decide, by decide,
   C8_timeout_always_fatal envT (some "ssh-config") (some "/a")
     (by decide) (by decide)⟩

/-- C9: while a block is being collected, a trimmed directive line whose
leading whitespace-delimited token is `User` and which does not contain the
substring `UserKnownHostsFile` sets the pending user to the line's last
token (first conjunct); and a `UserKnownHostsFile /x` line passes through
the whole step without changing the state at all — in particular it never
sets or overwrites the user field (second conjunct). -/
theorem C9_user_directive :
    (∀ (st : SSHState) (ls : String),
        lstripL ls.data = ls.data →
        firstTok ls = "User" →
        pyIn "UserKnownHostsFile" ls = false →
        (applyDirectives st ls).vm_user = some (pyStrip (lastTok ls)))
    ∧ (∀ (lookup : String → Option String) (st : SSHState),
        recordComplete st = false →
        sshStep lookup st "UserKnownHostsFile /x" = (st, none)) := by
  constructor
  · intro st ls htrim hfirst hin
    have htrim2 : List.dropWhile wsp ls.data = ls.data := htrim
    have hdata : firstTokL ls.data = ("User" : String).data :=
      congrArg String.data hfirst
    rw [firstTokL, htrim2] at hdata
    have hstart : pyStartswith ls "User" = true := by
      rw [pyStartswith, ← hdata]
      exact isPrefixL_takeWhile (fun c => ¬ wsp c) ls.data
    cases h1 : pyStartswith ls "HostName" <;>
      cases h3 : pyStartswith ls "Port" <;>
        cases h4 : pyStartswith ls "IdentityFile" <;>
          simp [applyDirectives, hstart, hin, h1, h3, h4]
  · intro lookup st hcomp
    have hh : pyStartswith "UserKnownHostsFile /x" "Host" = false := by decide
    have hstripid : pyStrip "UserKnownHostsFile /x" = "UserKnownHostsFile /x" := by
      decide
    have had : applyDirectives st "UserKnownHostsFile /x" = st := by
      have c1 : pyStartswith "UserKnownHostsFile /x" "HostName" = false := by decide
      have c2 : pyIn "UserKnownHostsFile" "UserKnownHostsFile /x" = true := by decide
      have c3 : pyStartswith "UserKnownHostsFile /x" "Port" = false := by decide
      have c4 : pyStartswith "UserKnownHostsFile /x" "IdentityFile" = false := by
        decide
      simp [applyDirectives, c1, c2, c3, c4]
    cases hname : truthy st.vm_name
    · simp [sshStep, hh, hname]
    · simp [sshStep, hh, hname, hstripid, had, hcomp]

/-- C9 (witness): the directive conjunct applied to the line `User vagrant`
from the initial state, and the whole-step conjunct applied to a state with
only a pending name. -/
theorem C9_witness :
    ((applyDirectives SSHState.initial "User vagrant").vm_user
        = some (pyStrip (lastTok "User vagrant")))
    ∧ (recordComplete ⟨some "a", none, none, none, none⟩ = false
      ∧ sshStep (fun _ => none) ⟨some "a", none, none, none, none⟩
          "UserKnownHostsFile /x"
        = (⟨some "a", none, none, none, none⟩, none)) :=
  ⟨C9_user_directive.1 SSHState.initial "User vagrant"
      (by decide) (by decide) (by decide),
   ⟨by decide,
    C9_user_directive.2 (fun _ => none)
      ⟨some "a", none, none, none, none⟩ (by decide)⟩⟩

/-- C10: a PathSpec with no truthy explicit `group_name` whose path ends in
the separator `/` (so the derived base segment is empty) and whose
Vagrantfile exists makes the whole run abort with the fatal *Could not
decide group name* parse error — the empty derived name is treated as no
name at all, and the path is not merely skipped.  The version probe is
assumed to succeed, else the run would already have aborted for the probe. -/
theorem C10_trailing_slash_fatal :
    ∀ (env : VagrantEnv) (gpi : Bool) (p : String) (q : List Char)
      (gn : Option String) (av : Option (List VarItem)) (v : String),
      p.data = q ++ ['/'] →
      truthy gn = false →
      env.runner "vagrant --version" "/tmp" = .success v →
      env.isfile (p ++ "/Vagrantfile") = true →
      _get_vagrant_vm_details env gpi [⟨some p, gn, av⟩]
        = .error (.parserError "Could not decide group name from given data") := by
  intro env gpi p q gn av v hp hgn hprobe hfile
  have hbase : basenameOf p = "" := basenameOf_trailing_sep p q hp
  have hrun : _run_vagrant_command env none none = .ok (some v) := by
    simp [_run_vagrant_command, truthy, effArguments, effFolder, hprobe]
  have hresolve : resolveGroupName gn p [] = (some "", [""]) := by
    simp [resolveGroupName, hgn, hbase, nameLoop, nameLoopGo, nameCandidate]
  have hpp : processPath env gpi AggState.initial ⟨some p, gn, av⟩
      = .error (.parserError "Could not decide group name from given data") := by
    simp only [processPath, hfile, Bool.not_true, Bool.false_eq_true, if_false]
    rw [show AggState.initial.existing_group_names = [] from rfl, hresolve]
    simp [truthy]
  simp only [_get_vagrant_vm_details, hrun, List.foldlM, hpp]
  rfl

/-- C10 (witness): the theorem applied to the path `/demo/` in the
all-success environment. -/
theorem C10_witness :
    (("/demo/" : String).data = ("/demo" : String).data ++ ['/']
      ∧ truthy none = false
      ∧ env10.runner "vagrant --version" "/tmp" = .success "Vagrant 2.3.4"
      ∧ env10.isfile ("/demo/" ++ "/Vagrantfile") = true)
    ∧ _get_vagrant_vm_details env10 false [⟨some "/demo/", none, none⟩]
      = .error (.parserError "Could not decide group name from given data") :=
  ⟨⟨by decide, rfl, rfl, rfl⟩,
   C10_trailing_slash_fatal env10 false "/demo/" ("/demo" : String).data
     none none "Vagrant 2.3.4" (by decide) rfl rfl rfl⟩
